import Mathlib

set_option maxRecDepth 16384

/-!
Verification of the prompt-flow logic of the ChatGPT_unofficial_API_Node
repository: the response-stabilization polling loop, the thread-id
extraction regex, the prompt-submission flow, and the API-key middleware
`verifyApiKey`.  Definitions are shallow embeddings of the JavaScript
source in `src/flows/prompt-flow.js`; theorems settle the frozen claims.
-/

/- ## Response Stabilizer: the polling loop

The loop in `promptWithOptions` is

    let previous = '';
    let finalText = null;
    const POLL_LIMIT = reason ? 600 : 300;
    for (let i = 0; i < POLL_LIMIT; i++) {
      const text = (read current sample);      -- empty string if node absent
      if (text && text === previous) { finalText = text; break; }
      previous = text;
      await waitForTimeout(1000);
    }
    if (finalText === null) { finalText = previous || null; }

We model the sequence of DOM reads as a function samples : Nat → String
(samples i is the text read at iteration i). -/

/-- The body of the polling `for` loop.  Arguments: current iteration
index `i`, remaining iterations `fuel`, and the `previous` variable.
Returns the value of `finalText` after the loop (`some t` when the loop
took the break, `none` otherwise), the final value of `previous`, and the
iteration index at which the loop stopped.  The test
`samples i ≠ "" ∧ samples i = previous` is the JS condition
`text && text === previous` (an empty string is falsy). -/
def pollLoopFrom (samples : Nat → String) : Nat → Nat → String → Option String × String × Nat
  | i, 0, previous => (none, previous, i)
  | i, fuel + 1, previous =>
    if samples i ≠ "" ∧ samples i = previous then (some (samples i), previous, i)
    else pollLoopFrom samples (i + 1) fuel (samples i)

/-- The polling loop as started by `promptWithOptions`: iteration 0,
`previous` initialized to the empty string, `budget` iterations. -/
def pollLoop (budget : Nat) (samples : Nat → String) : Option String × String × Nat :=
  pollLoopFrom samples 0 budget ""

/-- The final value of `finalText` after the loop and the post-loop fixup
`if (finalText === null) finalText = previous || null;`
(an empty `previous` is falsy, so it becomes `null`). -/
def stabilizedText (budget : Nat) (samples : Nat → String) : Option String :=
  match pollLoop budget samples with
  | (some t, _, _) => some t
  | (none, previous, _) => if previous = "" then none else some previous

/-- `const POLL_LIMIT = reason ? 600 : 300;` (prompt-flow.js line 67). -/
def POLL_LIMIT (reason : Bool) : Nat := if reason then 600 else 300

/-- The per-iteration sleep `await waitForTimeout(1000)` inside the loop
body (line 84).  The literal does not depend on the mode, so this
function is constant in its argument. -/
def pollSleepMs (_reason : Bool) : Nat := 1000

/-- Whether the loop break condition `text && text === previous` holds at
iteration `j` of a run that reached iteration `j` without breaking
(`previous` is then `samples (j-1)` for `j > 0` and `""` for `j = 0`,
and the break needs a non-empty sample, so `j = 0` never breaks). -/
def hasStableAt (samples : Nat → String) (j : Nat) : Bool :=
  decide (0 < j) && (samples j != "") && (samples j == samples (j - 1))

/-- No iteration within the budget satisfies the break condition. -/
def noStableWithin (budget : Nat) (samples : Nat → String) : Bool :=
  (List.range budget).all fun j => !hasStableAt samples j

/-- Modelled from the spec: the last non-empty sample of the first
`budget` samples (`none` when all are empty).  This is the value the
spec claims a budget-exhausted run returns; it is stated here only to
compare the claim with what the code computes. -/
def lastNonEmptyWithin (budget : Nat) (samples : Nat → String) : Option String :=
  (((List.range budget).map samples).reverse).find? fun s => s != ""

/-- The sample sequence of the spec scenario for stabilization:
`["", "Hello", "Hello world", "Hello world", ...]`. -/
def c1samples : Nat → String := fun i =>
  (["", "Hello", "Hello world", "Hello world"].getD i "Hello world")

/-- The sample sequence of the spec timeout scenario: `["A", "B", "C"]`. -/
def c2samples : Nat → String := fun i => (["A", "B", "C"].getD i "")

/-- A sample sequence whose last non-empty sample is not its final
sample: `"A"` followed by empty samples forever. -/
def c2cexSamples : Nat → String := fun i => if i = 0 then "A" else ""

/- ## Thread-id extraction

`page.url().match(/\/c\/([0-9a-f\-]+)/)` followed by
`match ? match[1] : null`.  The regex engine scans left to right for the
first position where the literal `/c/` is followed by at least one
character of the class `[0-9a-f-]`; the greedy `+` then captures the
maximal run of such characters. -/

/-- The character class `[0-9a-f\-]` of the thread-id regex: decimal
digits, lowercase `a`-`f`, and the hyphen. -/
def isThreadChar (c : Char) : Bool :=
  decide (('0' ≤ c ∧ c ≤ '9') ∨ ('a' ≤ c ∧ c ≤ 'f') ∨ c = '-')

/-- Attempt of the regex `/\/c\/([0-9a-f\-]+)/` at the start of `l`:
succeeds when `l` starts with `/c/` followed by at least one class
character, capturing the maximal run of class characters. -/
def matchAt (l : List Char) : Option (List Char) :=
  if l.take 3 = ['/', 'c', '/'] ∧ ((l.drop 3).takeWhile isThreadChar).isEmpty = false
  then some ((l.drop 3).takeWhile isThreadChar)
  else none

/-- Left-to-right scan of the regex over the character list: the first
position where `matchAt` succeeds wins. -/
def findThreadIdAux : List Char → Option (List Char)
  | [] => none
  | c :: cs =>
    match matchAt (c :: cs) with
    | some run => some run
    | none => findThreadIdAux cs

/-- `const match = page.url().match(/\/c\/([0-9a-f\-]+)/);`
`const newThreadId = match ? match[1] : null;` (lines 103-104). -/
def extractThreadId (url : String) : Option String :=
  (findThreadIdAux url.data).map fun l => String.mk l

/-- The characters of `https://chatgpt.com/c/`, the base URL followed by
the conversation path segment marker. -/
def baseChars : List Char :=
  ['h', 't', 't', 'p', 's', ':', '/', '/', 'c', 'h', 'a', 't', 'g', 'p', 't',
   '.', 'c', 'o', 'm', '/', 'c', '/']

/- ## The prompt flow

`promptWithOptions(page, {reason, search, threadId}, prompt)` performs:
navigate, optional mode toggle clicks, editor clear, type
`promptContext + prompt`, press Enter, grab the last article test id,
wait up to 30s for its markdown container, run the polling loop, clean
the text, and read the thread id back from the page URL.  Browser
behaviour is an environment: the poll samples, the article test ids, the
set of test ids whose article gets a markdown child during the wait, the
html-to-text converter and the page URL after the prompt. -/

/-- `const base = 'https://chatgpt.com';` -/
def chatgptBase : String := "https://chatgpt.com"

/-- `const url = threadId ? base + '/c/' + threadId : base;` including
the JS truthiness of the test (an empty-string threadId is falsy). -/
def navTarget (threadId : Option String) : String :=
  match threadId with
  | some t => if t = "" then chatgptBase else chatgptBase ++ "/c/" ++ t
  | none => chatgptBase

/-- The fixed instruction prepended to every prompt (line 48). -/
def promptContext : String :=
  "return the response to the below prompt excluding all the sources with links mentioned in the response anywhere. Prompt as follows: "

/-- `ids.pop()`: the last element of the `dataset.testid` list, or
`undefined` when the list is empty.  An article without the attribute
contributes `undefined` to the list, hence the `Option (Option String)`
collapse. -/
def latestArticleId (ids : List (Option String)) : Option String :=
  match ids.getLast? with
  | some v => v
  | none => none

/-- JS template-literal stringification inside
`article[data-testid="${latestId}"] div.markdown`: `undefined` prints as
the string `undefined`. -/
def jsTemplateStr : Option String → String
  | none => "undefined"
  | some s => s

/-- The selector built for the markdown container of the chosen article. -/
def mdSelectorFor (latestId : Option String) : String :=
  "article[data-testid=\"" ++ jsTemplateStr latestId ++ "\"] div.markdown"

/-- Whether `page.waitForSelector(mdSelector, 30000)` succeeds: some
article whose `data-testid` attribute equals the interpolated id string
acquires a `div.markdown` child within the wait window.  `markdownIds`
lists the `data-testid` values of such articles. -/
def mdWaitOk (markdownIds : List (Option String)) (latestId : Option String) : Bool :=
  markdownIds.contains (some (jsTemplateStr latestId))

/-- Modelled from the spec: the `html-to-text-conv` converter used by the
Response Cleaner is an external npm package whose code is not in this
repository.  The spec requires that a null captured text pass through
unchanged; on an actual string its behaviour stays abstract (`conv`). -/
def cleanerConvert (conv : String → Option String) : Option String → Option String
  | none => none
  | some s => conv s

/-- Browser-side behaviour observed by one `promptWithOptions` call. -/
structure PageEnv where
  gotoOk : Bool
  reasonClickOk : Bool
  searchClickOk : Bool
  editorOk : Bool
  articleIds : List (Option String)
  markdownIds : List (Option String)
  samples : Nat → String
  convert : String → Option String
  urlAfterPrompt : String

/-- Fatal failures of the flow: each UI step that can throw. -/
inductive FlowError where
  | gotoTimeout : FlowError
  | reasonToggleFailed : FlowError
  | searchToggleFailed : FlowError
  | editorNotFound : FlowError
  | mdWaitTimeout : Nat → FlowError
deriving DecidableEq

/-- Observable outcome of a successful `promptWithOptions` call: the
navigation URL, the text typed into the editor, the chosen article id
and selector, the polling outcome, whether the conversion-failure branch
logged, and the returned `{ threadId, response }`. -/
structure PromptTrace where
  navUrl : String
  typedText : String
  latestId : Option String
  mdSelector : String
  stopIndex : Nat
  finalText : Option String
  loggedConversionFailure : Bool
  threadId : Option String
  response : Option String
deriving DecidableEq

/-- The trace produced when no UI step throws, assembled exactly as the
source assembles it: `typedText` is `promptContext + prompt`, the poll
budget is `POLL_LIMIT reason`, `response` is the converted `finalText`,
the conversion-failure branch logs exactly when `cleaned === null`, and
`threadId` is re-captured from the page URL. -/
def promptTrace (env : PageEnv) (reason : Bool) (threadId : Option String) (prompt : String) : PromptTrace :=
  { navUrl := navTarget threadId
    typedText := promptContext ++ prompt
    latestId := latestArticleId env.articleIds
    mdSelector := mdSelectorFor (latestArticleId env.articleIds)
    stopIndex := (pollLoop (POLL_LIMIT reason) env.samples).2.2
    finalText := stabilizedText (POLL_LIMIT reason) env.samples
    loggedConversionFailure :=
      (cleanerConvert env.convert (stabilizedText (POLL_LIMIT reason) env.samples)).isNone
    threadId := extractThreadId env.urlAfterPrompt
    response := cleanerConvert env.convert (stabilizedText (POLL_LIMIT reason) env.samples) }

/-- `promptWithOptions`: the UI steps in source order, each failing step
aborting the call, and the 30-second markdown wait timing out when no
article matching the derived selector appears. -/
def promptWithOptions (env : PageEnv) (reason search : Bool) (threadId : Option String) (prompt : String) : Except FlowError PromptTrace :=
  if env.gotoOk = false then Except.error FlowError.gotoTimeout
  else if reason = true ∧ env.reasonClickOk = false then Except.error FlowError.reasonToggleFailed
  else if search = true ∧ env.searchClickOk = false then Except.error FlowError.searchToggleFailed
  else if env.editorOk = false then Except.error FlowError.editorNotFound
  else if mdWaitOk env.markdownIds (latestArticleId env.articleIds) = false then
    Except.error (FlowError.mdWaitTimeout 30000)
  else Except.ok (promptTrace env reason threadId prompt)

/-- An environment in which every step succeeds, the response stabilizes
at `Hello world`, and the page ends on thread `abc-123`. -/
def okEnv : PageEnv :=
  { gotoOk := true
    reasonClickOk := true
    searchClickOk := true
    editorOk := true
    articleIds := [some "conversation-turn-2"]
    markdownIds := [some "conversation-turn-2"]
    samples := fun _ => "Hello world"
    convert := fun s => some s
    urlAfterPrompt := "https://chatgpt.com/c/abc-123" }

/-- Like `okEnv` but the converter yields no usable content. -/
def failConvEnv : PageEnv :=
  { okEnv with convert := fun _ => none }

/-- An environment with zero response containers present. -/
def emptyEnv : PageEnv :=
  { okEnv with articleIds := [], markdownIds := [] }

/- ## API Gatekeeper

`verifyApiKey(req, res, next)`:

    if (process.env.NODE_ENV === "development") return next();
    const clientKey = req.header("ERKUT-API-KEY");
    if (!clientKey || clientKey !== process.env.ERKUT_API_KEY)
      return res.status(401).json({ error: "invalid api key" });
    next();

Environment variables and the header are `string | undefined`, modelled
as `Option String`. -/

/-- Decision of the middleware: pass to `next()`, or reply with a status
code and the `error` field of the JSON body. -/
inductive GateDecision where
  | next : GateDecision
  | reject : Nat → String → GateDecision
deriving DecidableEq

/-- JS truthiness of a `string | undefined` value: `undefined` and the
empty string are falsy. -/
def jsTruthy : Option String → Bool
  | none => false
  | some s => !(s == "")

/-- JS strict equality `===` between two `string | undefined` values. -/
def jsStrictEqStr : Option String → Option String → Bool
  | some a, some b => a == b
  | none, none => true
  | _, _ => false

/-- The `error` field of the rejection body `{ error: "invalid api key" }`. -/
def invalidApiKeyBody : String := "invalid api key"

/-- The middleware itself.  Arguments: `NODE_ENV`, `ERKUT_API_KEY`, and
the value of the `ERKUT-API-KEY` request header. -/
def verifyApiKey (nodeEnv erkutApiKey headerKey : Option String) : GateDecision :=
  if nodeEnv = some "development" then GateDecision.next
  else if jsTruthy headerKey = false ∨ jsStrictEqStr headerKey erkutApiKey = false then
    GateDecision.reject 401 invalidApiKeyBody
  else GateDecision.next

/- ## Lemmas about the polling loop -/

/-- When no iteration in the window satisfies the break condition, the
loop runs its full fuel and ends with `previous` holding the last
sample read. -/
theorem pollLoopFrom_no_stable (samples : Nat → String) :
    ∀ (fuel i : Nat) (p : String),
      (fuel = 0 ∨ ¬ (samples i ≠ "" ∧ samples i = p)) →
      (∀ j, i < j → j < i + fuel → ¬ (samples j ≠ "" ∧ samples j = samples (j - 1))) →
      pollLoopFrom samples i fuel p =
        (none, if fuel = 0 then p else samples (i + fuel - 1), i + fuel) := by
  intro fuel
  induction fuel with
  | zero => intro i p _ _; simp [pollLoopFrom]
  | succ n ih =>
    intro i p h0 h1
    have hno : ¬ (samples i ≠ "" ∧ samples i = p) := by
      rcases h0 with h | h
      · exact absurd h (Nat.succ_ne_zero n)
      · exact h
    have h0' : n = 0 ∨ ¬ (samples (i + 1) ≠ "" ∧ samples (i + 1) = samples i) := by
      rcases Nat.eq_zero_or_pos n with hn | hn
      · exact Or.inl hn
      · refine Or.inr ?_
        have := h1 (i + 1) (by omega) (by omega)
        simpa using this
    have h1' : ∀ j, i + 1 < j → j < (i + 1) + n →
        ¬ (samples j ≠ "" ∧ samples j = samples (j - 1)) := by
      intro j hj hjn
      exact h1 j (by omega) (by omega)
    simp only [pollLoopFrom, if_neg hno]
    rw [ih (i + 1) (samples i) h0' h1']
    have e1 : (if n = 0 then samples i else samples (i + 1 + n - 1)) = samples (i + n) := by
      rcases n with _ | m
      · simp
      · have : i + 1 + (m + 1) - 1 = i + (m + 1) := by omega
        simp [this]
    have e2 : (if n + 1 = 0 then p else samples (i + (n + 1) - 1)) = samples (i + n) := by
      have : i + (n + 1) - 1 = i + n := by omega
      simp [this]
    have e3 : i + 1 + n = i + (n + 1) := by omega
    rw [e1, e2, e3]

/-- When the first in-window iteration satisfying the break condition is
`k`, the loop breaks at `k` with `finalText = samples k`. -/
theorem pollLoopFrom_break (samples : Nat → String) :
    ∀ (fuel i : Nat) (p : String) (k : Nat),
      i ≤ k → k < i + fuel →
      (k = i → (samples k ≠ "" ∧ samples k = p)) →
      (i < k → (samples k ≠ "" ∧ samples k = samples (k - 1))) →
      (∀ j, i < j → j < k → ¬ (samples j ≠ "" ∧ samples j = samples (j - 1))) →
      (i < k → ¬ (samples i ≠ "" ∧ samples i = p)) →
      pollLoopFrom samples i fuel p =
        (some (samples k), if k = i then p else samples (k - 1), k) := by
  intro fuel
  induction fuel with
  | zero => intro i p k hik hk _ _ _ _; exact absurd hk (by omega)
  | succ n ih =>
    intro i p k hik hk hki hkgt hmid hnoti
    by_cases hke : k = i
    · subst hke
      have hst := hki rfl
      simp only [pollLoopFrom, if_pos hst]
      simp
    · have hlt : i < k := lt_of_le_of_ne hik (Ne.symm hke)
      have hno : ¬ (samples i ≠ "" ∧ samples i = p) := hnoti hlt
      simp only [pollLoopFrom, if_neg hno]
      have hrec := ih (i + 1) (samples i) k hlt (by omega)
        (by
          intro hk1
          have h := hkgt hlt
          have hidx : k - 1 = i := by omega
          rw [hidx] at h
          exact h)
        (fun _ => hkgt hlt)
        (fun j hj1 hj2 => hmid j (by omega) hj2)
        (by
          intro hik1
          have := hmid (i + 1) (by omega) hik1
          simpa using this)
      rw [hrec]
      rw [if_neg hke]
      by_cases hk1 : k = i + 1
      · rw [if_pos hk1]
        have : k - 1 = i := by omega
        rw [this]
      · rw [if_neg hk1]

/-- An early break always returns the sample read at the break index,
which is non-empty, and the break happens inside the fuel window. -/
theorem pollLoopFrom_some (samples : Nat → String) :
    ∀ (fuel i : Nat) (p t q : String) (k : Nat),
      pollLoopFrom samples i fuel p = (some t, q, k) →
      t ≠ "" ∧ samples k = t ∧ i ≤ k ∧ k < i + fuel := by
  intro fuel
  induction fuel with
  | zero => intro i p t q k h; simp [pollLoopFrom] at h
  | succ n ih =>
    intro i p t q k h
    simp only [pollLoopFrom] at h
    by_cases hc : samples i ≠ "" ∧ samples i = p
    · rw [if_pos hc] at h
      have h1 : some (samples i) = some t := congrArg Prod.fst h
      have hts : samples i = t := Option.some.injEq _ _ ▸ h1
      have hk : i = k := congrArg (fun x => x.2.2) h
      refine ⟨hts ▸ hc.1, ?_, ?_, ?_⟩
      · rw [← hk, hts]
      · omega
      · omega
    · rw [if_neg hc] at h
      have := ih (i + 1) (samples i) t q k h
      exact ⟨this.1, this.2.1, by omega, by omega⟩

/- ## Claims about the Response Stabilizer -/

/-- C1: for every sample sequence whose first non-empty sample equal to
its immediate predecessor occurs at iteration `k` within the budget, the
polling loop breaks at iteration `k` (before the budget is spent) and
the returned stabilized text is that sample. -/
theorem C1_stable_pair_terminates (budget : Nat) (samples : Nat → String) (k : Nat)
    (hk : k < budget) (hk0 : 0 < k)
    (hne : samples k ≠ "") (heq : samples k = samples (k - 1))
    (hfirst : ∀ j, j < k → 0 < j → ¬ (samples j ≠ "" ∧ samples j = samples (j - 1))) :
    pollLoop budget samples = (some (samples k), samples (k - 1), k) ∧
    stabilizedText budget samples = some (samples k) := by
  have h := pollLoopFrom_break samples budget 0 "" k (Nat.zero_le k) (by omega)
    (fun h0 => absurd h0 (by omega))
    (fun _ => ⟨hne, heq⟩)
    (fun j hj0 hjk => hfirst j hjk hj0)
    (fun _ => fun hc => hc.1 hc.2)
  rw [if_neg (by omega : ¬ k = 0)] at h
  have hp : pollLoop budget samples = (some (samples k), samples (k - 1), k) := h
  refine ⟨hp, ?_⟩
  rw [stabilizedText, hp]

/-- Witness for C1: the spec scenario `["", "Hello", "Hello world",
"Hello world", ...]` with the non-reasoning budget 300 stops at the
fourth sample (iteration index 3) with result `Hello world`. -/
theorem C1_witness :
    pollLoop 300 c1samples = (some (c1samples 3), c1samples 2, 3) ∧
    stabilizedText 300 c1samples = some (c1samples 3) :=
  C1_stable_pair_terminates 300 c1samples 3 (by decide) (by decide)
    (by decide) (by decide) (by decide)

/-- C2 counterexample: the sequence `"A", "", "", ...` never satisfies
the break condition within the budget 300, its last non-empty sample is
`"A"`, yet the code returns null (the final sample is empty), not the
last non-empty sample as the claim states. -/
theorem C2_counterexample :
    noStableWithin 300 c2cexSamples = true ∧
    lastNonEmptyWithin 300 c2cexSamples = some "A" ∧
    stabilizedText 300 c2cexSamples = none := by
  refine ⟨by decide, by decide, ?_⟩
  have h := pollLoopFrom_no_stable c2cexSamples 300 0 ""
    (Or.inr fun hc => hc.1 hc.2)
    (by
      intro j hj0 hj
      intro hc
      have : c2cexSamples j = "" := by
        simp only [c2cexSamples, if_neg (by omega : ¬ j = 0)]
      exact hc.1 this)
  rw [stabilizedText, pollLoop, h]
  simp [c2cexSamples]

/-- C2 (amended): a run in which no iteration within the budget
satisfies the break condition ends at budget exhaustion with `previous`
holding the final sample, and returns that final sample when it is
non-empty, or null when it is empty (a degraded outcome, not an
exception: the function stays total and yields an ordinary value). -/
theorem C2_budget_exhausted (budget : Nat) (samples : Nat → String)
    (hns : ∀ j, j < budget → 0 < j → ¬ (samples j ≠ "" ∧ samples j = samples (j - 1))) :
    pollLoop budget samples = (none, if budget = 0 then "" else samples (budget - 1), budget) ∧
    stabilizedText budget samples =
      (if budget = 0 then none
       else if samples (budget - 1) = "" then none else some (samples (budget - 1))) := by
  have h := pollLoopFrom_no_stable samples budget 0 ""
    (Or.inr fun hc => hc.1 hc.2)
    (fun j hj0 hj => hns j (by omega) hj0)
  rw [Nat.zero_add] at h
  have hp : pollLoop budget samples =
      (none, if budget = 0 then "" else samples (budget - 1), budget) := h
  refine ⟨hp, ?_⟩
  rw [stabilizedText, hp]
  rcases Nat.eq_zero_or_pos budget with hb | hb
  · subst hb; simp
  · rw [if_neg (by omega : ¬ budget = 0), if_neg (by omega : ¬ budget = 0)]

/-- Witness for C2: the spec timeout scenario `["A", "B", "C"]` with
budget 3 exhausts the budget and returns the final sample `"C"`. -/
theorem C2_witness :
    pollLoop 3 c2samples = (none, if 3 = 0 then "" else c2samples (3 - 1), 3) ∧
    stabilizedText 3 c2samples =
      (if 3 = 0 then none
       else if c2samples (3 - 1) = "" then none else some (c2samples (3 - 1))) :=
  C2_budget_exhausted 3 c2samples (by decide)

/-- C3: whenever the polling loop takes the early stable-termination
branch, the sample it broke on is non-empty; an empty-string sample,
however often repeated, never triggers the break. -/
theorem C3_break_sample_nonempty (budget : Nat) (samples : Nat → String)
    (t q : String) (k : Nat)
    (h : pollLoop budget samples = (some t, q, k)) :
    t ≠ "" ∧ samples k = t ∧ k < budget := by
  have := pollLoopFrom_some samples budget 0 "" t q k h
  exact ⟨this.1, this.2.1, by omega⟩

/-- Witness for C3: the stabilizing scenario sequence breaks early at
iteration 3 on the non-empty sample `Hello world`. -/
theorem C3_witness :
    ("Hello world" : String) ≠ "" ∧ c1samples 3 = "Hello world" ∧ 3 < 300 :=
  C3_break_sample_nonempty 300 c1samples "Hello world" (c1samples 2) 3 (by decide)

/-- C4: the polling iteration budget with reasoning mode active (600) is
strictly greater than without (300), while the per-iteration sleep
interval is the same fixed 1000 ms in both modes. -/
theorem C4_poll_budget_and_interval :
    POLL_LIMIT true > POLL_LIMIT false ∧
    pollSleepMs true = pollSleepMs false ∧ pollSleepMs true = 1000 := by
  decide

/- ## Lemmas about the thread-id regex scan -/

/-- The regex cannot match at a position whose first character is not a
slash. -/
theorem matchAt_eq_none_head (c : Char) (cs : List Char) (h : c ≠ '/') :
    matchAt (c :: cs) = none := by
  rw [matchAt, if_neg]
  rintro ⟨h1, -⟩
  simp [List.take] at h1
  exact h h1.1

/-- The regex cannot match at a position whose second character is not
the letter `c`. -/
theorem matchAt_eq_none_second (x y : Char) (cs : List Char) (h : y ≠ 'c') :
    matchAt (x :: y :: cs) = none := by
  rw [matchAt, if_neg]
  rintro ⟨h1, -⟩
  simp [List.take] at h1
  exact h h1.2.1

/-- The regex cannot match at a position whose third character is not a
slash. -/
theorem matchAt_eq_none_third (x y z : Char) (cs : List Char) (h : z ≠ '/') :
    matchAt (x :: y :: z :: cs) = none := by
  rw [matchAt, if_neg]
  rintro ⟨h1, -⟩
  simp [List.take] at h1
  exact h h1.2.2

/-- The scan skips any position where the regex does not match. -/
theorem findThreadIdAux_skip {c : Char} {cs : List Char} (h : matchAt (c :: cs) = none) :
    findThreadIdAux (c :: cs) = findThreadIdAux cs := by
  simp [findThreadIdAux, h]

/-- A slash-free character list contains no regex match at all. -/
theorem findThreadIdAux_no_slash : ∀ (l : List Char), '/' ∉ l → findThreadIdAux l = none := by
  intro l
  induction l with
  | nil => intro _; rfl
  | cons c cs ih =>
    intro h
    have hc : c ≠ '/' := fun he => h (he ▸ List.mem_cons_self c cs)
    rw [findThreadIdAux_skip (matchAt_eq_none_head c cs hc)]
    exact ih fun hm => h (List.mem_cons_of_mem c hm)

/-- A successful regex attempt captures a non-empty run of class
characters. -/
theorem matchAt_some {l run : List Char} (h : matchAt l = some run) :
    run ≠ [] ∧ run.all isThreadChar = true := by
  rw [matchAt] at h
  by_cases hc : l.take 3 = ['/', 'c', '/'] ∧
      ((l.drop 3).takeWhile isThreadChar).isEmpty = false
  · rw [if_pos hc] at h
    have hr : (l.drop 3).takeWhile isThreadChar = run := Option.some.inj h
    constructor
    · intro hnil
      rw [hr, hnil] at hc
      simp at hc
    · rw [← hr, List.all_eq_true]
      intro a ha
      exact List.mem_takeWhile_imp ha
  · rw [if_neg hc] at h
    exact absurd h (by simp)

/-- Any captured thread id is a non-empty list of class characters. -/
theorem findThreadIdAux_some : ∀ (l run : List Char), findThreadIdAux l = some run →
    run ≠ [] ∧ run.all isThreadChar = true := by
  intro l
  induction l with
  | nil => intro run h; simp [findThreadIdAux] at h
  | cons c cs ih =>
    intro run h
    rw [findThreadIdAux] at h
    cases hm : matchAt (c :: cs) with
    | some r =>
      rw [hm] at h
      simp at h
      exact h ▸ matchAt_some hm
    | none =>
      rw [hm] at h
      simp at h
      exact ih run h

/-- On a URL of the form `https://chatgpt.com/c/` followed by a
slash-free segment, the scan matches exactly at the `/c/` of the path
and captures the longest class-character prefix of the segment, or
fails when that prefix is empty. -/
theorem findThreadIdAux_base (seg : List Char) (h : '/' ∉ seg) :
    findThreadIdAux (baseChars ++ seg) =
      (if (seg.takeWhile isThreadChar).isEmpty = true then none
       else some (seg.takeWhile isThreadChar)) := by
  simp only [baseChars, List.cons_append, List.nil_append]
  rw [findThreadIdAux_skip (matchAt_eq_none_head 'h' _ (by decide))]
  rw [findThreadIdAux_skip (matchAt_eq_none_head 't' _ (by decide))]
  rw [findThreadIdAux_skip (matchAt_eq_none_head 't' _ (by decide))]
  rw [findThreadIdAux_skip (matchAt_eq_none_head 'p' _ (by decide))]
  rw [findThreadIdAux_skip (matchAt_eq_none_head 's' _ (by decide))]
  rw [findThreadIdAux_skip (matchAt_eq_none_head ':' _ (by decide))]
  rw [findThreadIdAux_skip (matchAt_eq_none_second '/' '/' _ (by decide))]
  rw [findThreadIdAux_skip (matchAt_eq_none_third '/' 'c' 'h' _ (by decide))]
  rw [findThreadIdAux_skip (matchAt_eq_none_head 'c' _ (by decide))]
  rw [findThreadIdAux_skip (matchAt_eq_none_head 'h' _ (by decide))]
  rw [findThreadIdAux_skip (matchAt_eq_none_head 'a' _ (by decide))]
  rw [findThreadIdAux_skip (matchAt_eq_none_head 't' _ (by decide))]
  rw [findThreadIdAux_skip (matchAt_eq_none_head 'g' _ (by decide))]
  rw [findThreadIdAux_skip (matchAt_eq_none_head 'p' _ (by decide))]
  rw [findThreadIdAux_skip (matchAt_eq_none_head 't' _ (by decide))]
  rw [findThreadIdAux_skip (matchAt_eq_none_head '.' _ (by decide))]
  rw [findThreadIdAux_skip (matchAt_eq_none_head 'c' _ (by decide))]
  rw [findThreadIdAux_skip (matchAt_eq_none_head 'o' _ (by decide))]
  rw [findThreadIdAux_skip (matchAt_eq_none_head 'm' _ (by decide))]
  by_cases hrun : (seg.takeWhile isThreadChar).isEmpty = true
  · have hm : matchAt ('/' :: 'c' :: '/' :: seg) = none := by
      rw [matchAt, if_neg]
      rintro ⟨-, h2⟩
      simp only [List.drop_succ_cons, List.drop_zero] at h2
      rw [hrun] at h2
      exact absurd h2 (by simp)
    rw [findThreadIdAux_skip hm]
    rw [findThreadIdAux_skip (matchAt_eq_none_head 'c' _ (by decide))]
    have hm2 : matchAt ('/' :: seg) = none := by
      rw [matchAt, if_neg]
      rintro ⟨h1, -⟩
      simp [List.take] at h1
      have : '/' ∈ seg.take 2 := by rw [h1]; simp
      exact h (List.take_subset 2 seg this)
    rw [findThreadIdAux_skip hm2]
    rw [findThreadIdAux_no_slash seg h, if_pos hrun]
  · have hm : matchAt ('/' :: 'c' :: '/' :: seg) = some (seg.takeWhile isThreadChar) := by
      rw [matchAt, if_pos]
      · simp only [List.drop_succ_cons, List.drop_zero]
      · refine ⟨by simp [List.take], ?_⟩
        simp only [List.drop_succ_cons, List.drop_zero]
        simpa using hrun
    simp only [findThreadIdAux, hm]
    rw [if_neg hrun]

/-- C9: every extracted thread id is non-empty and consists only of the
characters the regex class allows (decimal digits, lowercase a-f, and
hyphens); and for a page URL that is the conversation base followed by a
slash-free segment, the extracted id is the longest class-character
prefix of that segment, or null when that prefix is empty — never the
full segment when the segment contains a foreign character. -/
theorem C9_threadId_character_class :
    (∀ (url t : String), extractThreadId url = some t →
      t ≠ "" ∧ t.data.all isThreadChar = true) ∧
    (∀ seg : List Char, '/' ∉ seg →
      extractThreadId (String.mk (baseChars ++ seg)) =
        (if (seg.takeWhile isThreadChar).isEmpty = true then none
         else some (String.mk (seg.takeWhile isThreadChar)))) := by
  constructor
  · intro url t h
    rw [extractThreadId] at h
    cases hf : findThreadIdAux url.data with
    | none => rw [hf] at h; simp at h
    | some run =>
      rw [hf] at h
      obtain ⟨hne, hall⟩ := findThreadIdAux_some url.data run hf
      have hmk : String.mk run = t := Option.some.inj (by exact h)
      subst hmk
      refine ⟨?_, hall⟩
      intro hEq
      apply hne
      have hd := congrArg String.data hEq
      simpa using hd
  · intro seg hseg
    rw [extractThreadId]
    have hdata : (String.mk (baseChars ++ seg)).data = baseChars ++ seg := rfl
    rw [hdata, findThreadIdAux_base seg hseg]
    by_cases hrun : (seg.takeWhile isThreadChar).isEmpty = true
    · rw [if_pos hrun, if_pos hrun]; rfl
    · rw [if_neg hrun, if_neg hrun]; rfl

/-- Witness for C9: the id extracted from the well-formed URL
`https://chatgpt.com/c/abc-123` is non-empty and all class characters,
and a segment `abc-123XYZ` containing foreign characters yields only its
class prefix `abc-123`, not the full segment. -/
theorem C9_witness :
    (("abc-123" : String) ≠ "" ∧ "abc-123".data.all isThreadChar = true) ∧
    extractThreadId (String.mk (baseChars ++ "abc-123XYZ".data)) =
      (if (("abc-123XYZ".data.takeWhile isThreadChar).isEmpty = true) then none
       else some (String.mk ("abc-123XYZ".data.takeWhile isThreadChar))) :=
  ⟨C9_threadId_character_class.1 "https://chatgpt.com/c/abc-123" "abc-123" (by decide),
   C9_threadId_character_class.2 ("abc-123XYZ".data) (by decide)⟩

/- ## Claims about the prompt flow -/

/-- A successful flow call returns exactly the trace assembled by
`promptTrace`. -/
theorem promptWithOptions_ok (env : PageEnv) (reason search : Bool)
    (threadId : Option String) (prompt : String) (tr : PromptTrace)
    (h : promptWithOptions env reason search threadId prompt = Except.ok tr) :
    tr = promptTrace env reason threadId prompt := by
  unfold promptWithOptions at h
  repeat' split at h
  all_goals first
    | exact (Except.ok.inj h).symm
    | exact absurd h (by simp)

/-- C6: the threadId of a successful result is always the value the
regex extracts from the page location after submission, and it does not
depend on the threadId supplied in the request. -/
theorem C6_threadId_from_location (env : PageEnv) (reason search : Bool)
    (tid tid2 : Option String) (prompt : String) (tr tr2 : PromptTrace)
    (h : promptWithOptions env reason search tid prompt = Except.ok tr)
    (h2 : promptWithOptions env reason search tid2 prompt = Except.ok tr2) :
    tr.threadId = extractThreadId env.urlAfterPrompt ∧ tr2.threadId = tr.threadId := by
  have e1 := promptWithOptions_ok env reason search tid prompt tr h
  have e2 := promptWithOptions_ok env reason search tid2 prompt tr2 h2
  subst e1
  subst e2
  exact ⟨rfl, rfl⟩

/-- Witness for C6: with no threadId in the request and the page
resolving to `.../c/abc-123` after submit, the returned threadId is
`abc-123`, and supplying threadId `1234` instead changes nothing. -/
theorem C6_witness :
    ((promptTrace okEnv false none "hi").threadId = extractThreadId okEnv.urlAfterPrompt ∧
     (promptTrace okEnv false (some "1234") "hi").threadId =
       (promptTrace okEnv false none "hi").threadId) ∧
    extractThreadId okEnv.urlAfterPrompt = some "abc-123" :=
  ⟨C6_threadId_from_location okEnv false false none (some "1234") "hi" _ _ rfl rfl,
   by decide⟩

/-- C7: the text typed into the editor is the fixed citation-omitting
instruction string concatenated with the raw prompt; the raw prompt
reappears verbatim after the instruction, so no local stripping happens
before submission. -/
theorem C7_submission_text (env : PageEnv) (reason search : Bool)
    (tid : Option String) (prompt : String) (tr : PromptTrace)
    (h : promptWithOptions env reason search tid prompt = Except.ok tr) :
    tr.typedText = promptContext ++ prompt ∧
    promptContext = "return the response to the below prompt excluding all the sources with links mentioned in the response anywhere. Prompt as follows: " ∧
    tr.typedText.data.drop promptContext.data.length = prompt.data := by
  have e := promptWithOptions_ok env reason search tid prompt tr h
  subst e
  refine ⟨rfl, rfl, ?_⟩
  show (promptContext ++ prompt).data.drop promptContext.data.length = prompt.data
  have hd : (promptContext ++ prompt).data = promptContext.data ++ prompt.data := rfl
  rw [hd]
  exact List.drop_left promptContext.data prompt.data

/-- Witness for C7: a concrete successful call types exactly the
instruction followed by the raw prompt. -/
theorem C7_witness :
    (promptTrace okEnv false none "What is 2+2?").typedText =
      promptContext ++ "What is 2+2?" ∧
    promptContext = "return the response to the below prompt excluding all the sources with links mentioned in the response anywhere. Prompt as follows: " ∧
    (promptTrace okEnv false none "What is 2+2?").typedText.data.drop
      promptContext.data.length = "What is 2+2?".data :=
  C7_submission_text okEnv false false none "What is 2+2?" _ rfl

/-- C8: the Response Cleaner passes a null captured text through
unchanged; the response returned to the caller is exactly the converted
final text (propagated as a value, never thrown), and the
conversion-failure branch logs exactly when the cleaned result is null. -/
theorem C8_cleaner_null_propagation (env : PageEnv) (reason search : Bool)
    (tid : Option String) (prompt : String) (tr : PromptTrace)
    (h : promptWithOptions env reason search tid prompt = Except.ok tr) :
    cleanerConvert env.convert none = none ∧
    tr.response = cleanerConvert env.convert tr.finalText ∧
    (tr.finalText = none → tr.response = none) ∧
    tr.loggedConversionFailure = tr.response.isNone := by
  have e := promptWithOptions_ok env reason search tid prompt tr h
  subst e
  refine ⟨rfl, rfl, ?_, rfl⟩
  intro hft
  show cleanerConvert env.convert (stabilizedText (POLL_LIMIT reason) env.samples) = none
  have hst : stabilizedText (POLL_LIMIT reason) env.samples = none := hft
  rw [hst]
  rfl

/-- Witness for C8: with a converter that yields no usable content, the
null result is propagated to the caller and the failure branch logs. -/
theorem C8_witness :
    (cleanerConvert failConvEnv.convert none = none ∧
     (promptTrace failConvEnv false none "hi").response =
       cleanerConvert failConvEnv.convert (promptTrace failConvEnv false none "hi").finalText ∧
     ((promptTrace failConvEnv false none "hi").finalText = none →
       (promptTrace failConvEnv false none "hi").response = none) ∧
     (promptTrace failConvEnv false none "hi").loggedConversionFailure =
       ((promptTrace failConvEnv false none "hi").response).isNone) ∧
    (promptTrace failConvEnv false none "hi").loggedConversionFailure = true :=
  ⟨C8_cleaner_null_propagation failConvEnv false false none "hi" _ rfl, by decide⟩

/-- C10: with zero response containers present, the selected test id is
`undefined` (the JS value), the derived selector is the literal
`undefined` selector which matches no element, and the call fails with
the bounded 30-second wait timeout — the selection step itself raises no
out-of-bounds error and the polling loop is never reached. -/
theorem C10_zero_articles_timeout (env : PageEnv) (reason search : Bool)
    (tid : Option String) (prompt : String)
    (hgoto : env.gotoOk = true) (hreason : env.reasonClickOk = true)
    (hsearch : env.searchClickOk = true) (heditor : env.editorOk = true)
    (hempty : env.articleIds = [])
    (hnoundef : env.markdownIds.contains (some "undefined") = false) :
    latestArticleId env.articleIds = none ∧
    mdSelectorFor (latestArticleId env.articleIds) =
      "article[data-testid=\"undefined\"] div.markdown" ∧
    promptWithOptions env reason search tid prompt =
      Except.error (FlowError.mdWaitTimeout 30000) := by
  have hlast : latestArticleId env.articleIds = none := by rw [hempty]; rfl
  refine ⟨hlast, ?_, ?_⟩
  · rw [hlast]; rfl
  · have hmw : mdWaitOk env.markdownIds (latestArticleId env.articleIds) = false := by
      rw [hlast]
      exact hnoundef
    unfold promptWithOptions
    rw [if_neg (by simp [hgoto]), if_neg (by simp [hreason]), if_neg (by simp [hsearch]),
      if_neg (by simp [heditor]), if_pos hmw]

/-- Witness for C10: the concrete zero-article environment selects the
`undefined` id, derives the `undefined` selector, and times out at the
30-second markdown wait. -/
theorem C10_witness :
    latestArticleId emptyEnv.articleIds = none ∧
    mdSelectorFor (latestArticleId emptyEnv.articleIds) =
      "article[data-testid=\"undefined\"] div.markdown" ∧
    promptWithOptions emptyEnv false false none "hi" =
      Except.error (FlowError.mdWaitTimeout 30000) :=
  C10_zero_articles_timeout emptyEnv false false none "hi" rfl rfl rfl rfl rfl rfl

/- ## Claims about the API Gatekeeper -/

/-- C5 counterexample: configure the secret to the empty string and send
the empty string in the header.  The header then strictly equals the
configured secret, yet the middleware rejects with 401 because the empty
string is falsy in the `!clientKey` test — so outside permissive mode,
admission is not equivalent to the header exactly equalling the secret. -/
theorem C5_counterexample :
    jsStrictEqStr (some "") (some "") = true ∧
    verifyApiKey (some "production") (some "") (some "") =
      GateDecision.reject 401 invalidApiKeyBody := by
  decide

/-- C5 (amended): in permissive mode (`NODE_ENV` equal to
`development`) every request is admitted; outside permissive mode a
request is admitted iff the header is present, non-empty, and equals the
configured secret, and every rejection carries status 401 with the error
body `invalid api key`. -/
theorem C5_gatekeeper_amended (nodeEnv secret header : Option String) :
    (nodeEnv = some "development" → verifyApiKey nodeEnv secret header = GateDecision.next) ∧
    (nodeEnv ≠ some "development" →
      ((verifyApiKey nodeEnv secret header = GateDecision.next) ↔
        (∃ s, header = some s ∧ s ≠ "" ∧ secret = some s)) ∧
      (verifyApiKey nodeEnv secret header ≠ GateDecision.next →
        verifyApiKey nodeEnv secret header =
          GateDecision.reject 401 invalidApiKeyBody)) := by
  constructor
  · intro hdev
    unfold verifyApiKey
    rw [if_pos hdev]
  · intro hnd
    unfold verifyApiKey
    rw [if_neg hnd]
    constructor
    · constructor
      · intro hn
        by_cases hc : jsTruthy header = false ∨ jsStrictEqStr header secret = false
        · rw [if_pos hc] at hn
          exact absurd hn (by simp)
        · push_neg at hc
          obtain ⟨h1, h2⟩ := hc
          cases header with
          | none => exact absurd rfl h1
          | some s =>
            refine ⟨s, rfl, ?_, ?_⟩
            · intro hs
              apply h1
              rw [hs]
              rfl
            · cases secret with
              | none => exact absurd rfl h2
              | some t =>
                have hb : (s == t) = true := by
                  cases hbe : (s == t) with
                  | false => exact absurd hbe h2
                  | true => rfl
                have hst : s = t := by simpa using hb
                rw [hst]
      · rintro ⟨s, hh, hs, hsec⟩
        subst hh
        subst hsec
        have hcond : ¬ (jsTruthy (some s) = false ∨ jsStrictEqStr (some s) (some s) = false) := by
          push_neg
          refine ⟨?_, ?_⟩
          · simp [jsTruthy, hs]
          · simp [jsStrictEqStr]
        rw [if_neg hcond]
    · intro hne
      by_cases hc : jsTruthy header = false ∨ jsStrictEqStr header secret = false
      · rw [if_pos hc]
      · rw [if_neg hc] at hne
        exact absurd rfl hne

/-- Witness for C5: outside permissive mode, a matching non-empty header
is admitted and a mismatched one is rejected with 401 and the exact
error body. -/
theorem C5_witness :
    verifyApiKey (some "production") (some "s3cret") (some "s3cret") = GateDecision.next ∧
    verifyApiKey (some "production") (some "s3cret") (some "wrong") =
      GateDecision.reject 401 invalidApiKeyBody :=
  ⟨((C5_gatekeeper_amended (some "production") (some "s3cret") (some "s3cret")).2
      (by decide)).1.mpr ⟨"s3cret", rfl, by decide, rfl⟩,
   ((C5_gatekeeper_amended (some "production") (some "s3cret") (some "wrong")).2
      (by decide)).2 (by decide)⟩
